import Mathlib

/-!
Shallow embedding of the covasim plotting layer (`covasim/plotting.py`) and of
the vaccination sub-targeting helpers of `tests/devtests/test_variants.py`,
together with theorems checking the repository's specification against it.

Python exceptions are modelled by an explicit error type; functions that can
raise return `Except PyErr`.  Matplotlib / Plotly side effects are modelled by
recording the observable outcome (which figure path was saved, which figures
were created and returned, which marker days were added), while numeric series
are day-indexed lists.
-/

set_option maxHeartbeats 1000000

namespace Covasim

/-- The Python exceptions raised (or propagated) by the code under study. -/
inductive PyErr where
  | keyError (k : String)
  | indexError (i : Nat)
  | valueError (msg : String)
  | notImplementedError (msg : String)
  | nameError (n : String)
  | zeroDivisionError
deriving DecidableEq, Repr

/-- Dictionary lookup as a partial map: the value at the first matching key.
Dictionaries are modelled as association lists in insertion order. -/
def dictLookup {α : Type} (k : String) : List (String × α) → Option α
  | [] => none
  | (k', v) :: rest => if k' = k then some v else dictLookup k rest

/-- Python dictionary lookup `d[k]`: raises `KeyError` when the key is absent. -/
def pyLookup {α : Type} (d : List (String × α)) (k : String) : Except PyErr α :=
  match dictLookup k d with
  | some v => Except.ok v
  | none => Except.error (PyErr.keyError k)

/-- Python list indexing `l[i]` (non-negative index): raises `IndexError` when
out of range. -/
def pyIdx {α : Type} (l : List α) (i : Nat) : Except PyErr α :=
  match l.get? i with
  | some v => Except.ok v
  | none => Except.error (PyErr.indexError i)

/-! ## `tests/devtests/test_variants.py`: `get_ind_of_min_value` and `vacc_subtarg` -/

/-- The loop of `get_ind_of_min_value`:
`for place, t in enumerate(list): if time >= t: ind = place`.
`place` threads the `enumerate` counter and `ind` the accumulator. -/
def giomvGo (time : Int) (ind : Option Nat) (place : Nat) : List Int → Option Nat
  | [] => ind
  | t :: rest => giomvGo time (if time ≥ t then some place else ind) (place + 1) rest

/-- `get_ind_of_min_value(list, time)`: the last index whose entry is `≤ time`;
raises `ValueError(f'{time} is not within the list of times')` when no entry
qualifies. -/
def get_ind_of_min_value (list : List Int) (time : Int) : Except PyErr Nat :=
  match giomvGo time none 0 list with
  | none => Except.error (PyErr.valueError (toString time ++ " is not within the list of times"))
  | some ind => Except.ok ind

/-- The `sim.vxsubtarg` object read by `vacc_subtarg`: parallel lists of day
thresholds, age cutoffs and vaccination probabilities. -/
structure VxSubtarg where
  days : List Int
  age : List ℚ
  prob : List ℚ
deriving DecidableEq, Repr

/-- `sc.findinds(bools)`: the indices at which the boolean vector is true. -/
def findinds (bools : List Bool) : List Nat :=
  (bools.enum.filter (fun p => p.2)).map (fun p => p.1)

/-- `vacc_subtarg(sim)`: look up the sub-targeting index for day `t`, select the
age cutoff and probability at that index, and return the indices of
yet-unvaccinated people at least that old together with a constant probability
vector.  People are (age, vaccinated) pairs. -/
def vacc_subtarg (vx : VxSubtarg) (t : Int) (people : List (ℚ × Bool)) :
    Except PyErr (List Nat × List ℚ) :=
  match get_ind_of_min_value vx.days t with
  | Except.error e => Except.error e
  | Except.ok ind =>
    match pyIdx vx.age ind with
    | Except.error e => Except.error e
    | Except.ok age =>
      match pyIdx vx.prob ind with
      | Except.error e => Except.error e
      | Except.ok prob =>
        let inds := findinds (people.map (fun q => decide (q.1 ≥ age) && !q.2))
        Except.ok (inds, List.replicate inds.length prob)

/-! ## `covasim/plotting.py`: `handle_to_plot` -/

/-- An ordered dict mapping panel titles to the list of result keys shown in
that panel (`to_plot` as used by `plot_sim` / `plot_scens`). -/
def ODict : Type := List (String × List String)

instance : DecidableEq ODict := by unfold ODict; infer_instance

/-- `handle_to_plot(which, to_plot, n_cols)`.  The default panel sets
`cvd.get_sim_plots()` / `cvd.get_scen_plots()` live in the (not provided)
`defaults` module and are passed in as parameters.  `np.ceil(len/n_cols)` is
the ceiling division of the panel count by the column count; a zero `n_cols`
is Python's `ZeroDivisionError`. -/
def handle_to_plot (get_sim_plots get_scen_plots : ODict) (which : String)
    (to_plot : Option ODict) (n_cols : Nat) : Except PyErr (ODict × Nat) :=
  let chosen : Except PyErr ODict :=
    match to_plot with
    | none =>
      if which = "sim" then Except.ok get_sim_plots
      else if which = "scens" then Except.ok get_scen_plots
      else Except.error (PyErr.notImplementedError
        ("\"which\" must be \"sim\" or \"scens\", not \"" ++ which ++ "\""))
    | some tp => Except.ok tp
  match chosen with
  | Except.error e => Except.error e
  | Except.ok tp =>
    if n_cols = 0 then Except.error PyErr.zeroDivisionError
    else Except.ok (tp, (tp.length + n_cols - 1) / n_cols)

/-! ## `covasim/plotting.py`: `title_grid_legend` -/

/-- Python `d.pop(k)`: the value stored at `k` together with the dictionary
with that entry removed, or `none` when the key is absent. -/
def dictPop {α : Type} (k : String) : List (String × α) → Option (α × List (String × α))
  | [] => none
  | (k', v) :: rest =>
    if k' = k then some (v, rest)
    else
      match dictPop k rest with
      | some (v', rest') => some (v', (k', v) :: rest')
      | none => none

/-- Python `d[k] = v`: update the entry in place when the key is present,
append it otherwise (insertion order). -/
def dictSet {α : Type} (k : String) (v : α) : List (String × α) → List (String × α)
  | [] => [(k, v)]
  | (k', v') :: rest => if k' = k then (k', v) :: rest else (k', v') :: dictSet k v rest

/-- `title_grid_legend`'s handling of `legend_args`: pop `'show_legend'` if
present (its raw value, of arbitrary type `α`, decides legend display through
Python truthiness), call `ax.legend(**legend_args)` when the flag is truthy,
and put the popped entry back before returning.  The first component records
the argument dict passed to `ax.legend` (or `none` when the legend is not
shown); the second is `legend_args` as left after the call. -/
def title_grid_legend {α : Type} (legend_args : List (String × α)) (truthy : α → Bool)
    (show_legend : Bool) : Option (List (String × α)) × List (String × α) :=
  match dictPop "show_legend" legend_args with
  | some (v, rest) =>
    ((if truthy v then some rest else none), dictSet "show_legend" v rest)
  | none =>
    ((if show_legend then some legend_args else none), legend_args)

theorem dictPop_lookup_self {α : Type} (k : String) :
    ∀ (l : List (String × α)) (v : α) (rest : List (String × α)),
      dictPop k l = some (v, rest) → dictLookup k l = some v := by
  intro l
  induction l with
  | nil => intro v rest h; simp [dictPop] at h
  | cons p tail ih =>
    intro v rest h
    obtain ⟨k₀, v₀⟩ := p
    by_cases hk : k₀ = k
    · rw [dictPop, if_pos hk] at h
      rw [dictLookup, if_pos hk]
      simp only [Option.some.injEq, Prod.mk.injEq] at h
      rw [h.1]
    · rw [dictPop, if_neg hk] at h
      rw [dictLookup, if_neg hk]
      match hpop : dictPop k tail with
      | some (v₁, rest₁) =>
        rw [hpop, Option.some.injEq, Prod.mk.injEq] at h
        rw [ih v₁ rest₁ hpop, h.1]
      | none => rw [hpop] at h; exact absurd h (by simp)

theorem dictPop_lookup_ne {α : Type} (k k' : String) (hne : k' ≠ k) :
    ∀ (l : List (String × α)) (v : α) (rest : List (String × α)),
      dictPop k l = some (v, rest) → dictLookup k' rest = dictLookup k' l := by
  intro l
  induction l with
  | nil => intro v rest h; simp [dictPop] at h
  | cons p tail ih =>
    intro v rest h
    obtain ⟨k₀, v₀⟩ := p
    by_cases hk : k₀ = k
    · rw [dictPop, if_pos hk] at h
      simp only [Option.some.injEq, Prod.mk.injEq] at h
      rw [← h.2, dictLookup, if_neg (fun he : k₀ = k' => hne (by rw [← he, hk]))]
    · rw [dictPop, if_neg hk] at h
      match hpop : dictPop k tail with
      | some (v₁, rest₁) =>
        rw [hpop, Option.some.injEq, Prod.mk.injEq] at h
        rw [← h.2, dictLookup, dictLookup]
        by_cases hk' : k₀ = k'
        · rw [if_pos hk', if_pos hk']
        · rw [if_neg hk', if_neg hk']
          exact ih v₁ rest₁ hpop
      | none => rw [hpop] at h; exact absurd h (by simp)

theorem lookup_dictSet_self {α : Type} (k : String) (v : α) :
    ∀ (l : List (String × α)), dictLookup k (dictSet k v l) = some v := by
  intro l
  induction l with
  | nil => simp [dictSet, dictLookup]
  | cons p tail ih =>
    obtain ⟨k₀, v₀⟩ := p
    by_cases hk : k₀ = k
    · rw [dictSet, if_pos hk, dictLookup, if_pos hk]
    · rw [dictSet, if_neg hk, dictLookup, if_neg hk]
      exact ih

theorem lookup_dictSet_ne {α : Type} (k k' : String) (v : α) (hne : k' ≠ k) :
    ∀ (l : List (String × α)), dictLookup k' (dictSet k v l) = dictLookup k' l := by
  intro l
  induction l with
  | nil =>
    rw [dictSet, dictLookup, dictLookup, if_neg (fun he : k = k' => hne he.symm), dictLookup]
  | cons p tail ih =>
    obtain ⟨k₀, v₀⟩ := p
    by_cases hk : k₀ = k
    · rw [dictSet, if_pos hk, dictLookup, dictLookup,
        if_neg (fun he : k₀ = k' => hne (by rw [← he, hk])),
        if_neg (fun he : k₀ = k' => hne (by rw [← he, hk]))]
    · rw [dictSet, if_neg hk, dictLookup, dictLookup]
      by_cases hk' : k₀ = k'
      · rw [if_pos hk', if_pos hk']
      · rw [if_neg hk', if_neg hk']
        exact ih

/-! ## `covasim/plotting.py`: `plot_transtree` -/

/-- A matplotlib figure handle: either one supplied by the caller, the one
`pl.figure(**args.fig)` creates in `create_figs`, or a per-panel figure created
by `create_subplots` when `sep_figs` is set. -/
inductive Fig where
  | supplied (n : Nat)
  | created
  | panel (pnum : Nat)
deriving DecidableEq, Repr

/-- An entry of the detailed transmission tree, as read by `plot_transtree`:
`truthy` is the Python truthiness of the entry itself and `source` that of
`entry.source`. -/
structure TTEntry where
  truthy : Bool
  source : Bool
  date : Int
  layer : String
deriving DecidableEq, Repr

/-- The `ttlist` built by `plot_transtree`: the entries that are truthy and
have a truthy source. -/
def transtree_ttlist (detailed : List TTEntry) : List TTEntry :=
  detailed.filter (fun e => e.truthy && e.source)

/-- `plot_transtree(self, ...)`: raises `ValueError` when `self.detailed` is
`None`.  Otherwise it builds `ttlist` and then evaluates `pd.DataFrame(...)`;
`pd` is not imported anywhere in `plotting.py`, so that line raises
`NameError('pd')`. -/
def plot_transtree (detailed : Option (List TTEntry)) : Except PyErr Fig :=
  match detailed with
  | none =>
    Except.error (PyErr.valueError
      "Please run sim.people.make_detailed_transtree() before calling plotting")
  | some entries =>
    let _ttlist := transtree_ttlist entries
    Except.error (PyErr.nameError "pd")

/-! ## `covasim/plotting.py`: `plotly_sim` / `plotly_people` intervention markers -/

/-- An intervention as seen by the plotting layer: `days` is `none` when the
object has no `days` attribute, and `do_plot` is its plotting flag. -/
structure Intervention where
  days : Option (List Int)
  do_plot : Bool
deriving DecidableEq, Repr

/-- The days at which `plotly_sim` adds a vertical intervention change marker
to a figure: each day of each intervention exposing `days`, kept when strictly
between `0` and `sim['n_days']`.  The `do_plot` flag is not consulted. -/
def plotly_sim_markers (interventions : List Intervention) (n_days : Int) : List Int :=
  if interventions.isEmpty then []
  else interventions.flatMap (fun interv =>
    match interv.days with
    | none => []
    | some ds => ds.filter (fun d => decide (d > 0) && decide (d < n_days)))

/-- The days at which `plotly_people` adds a vertical intervention change
marker: as `plotly_sim_markers`, but only for interventions whose `do_plot`
flag is set. -/
def plotly_people_markers (interventions : List Intervention) (n_days : Int) : List Int :=
  if interventions.isEmpty then []
  else interventions.flatMap (fun interv =>
    match interv.days with
    | none => []
    | some ds =>
      if interv.do_plot then ds.filter (fun d => decide (d > 0) && decide (d < n_days))
      else [])

/-! ## `covasim/plotting.py`: the `plot_sim` / `plot_scens` / `plot_result` pipeline -/

/-- A result series as read from `sim.results[key]`: day-indexed values, a
display name and color, and optional low/high uncertainty bounds. -/
structure Result where
  values : List Int
  name : String
  color : String
  low : Option (List Int)
  high : Option (List Int)
deriving DecidableEq, Repr

/-- A simulation object as read by the plotting layer. -/
structure Sim where
  results : List (String × Result)
  data : Option (List (String × List Int))
  interventions : List Intervention
  n_days : Int
deriving DecidableEq, Repr

/-- A scenario's best/low/high aggregate series. -/
structure ScenData where
  best : List Int
  low : List Int
  high : List Int
  name : String
deriving DecidableEq, Repr

/-- A scenario-results object: `results` maps result keys to per-scenario
series, `sims` maps scenario names to their simulations, and `tvec` is the
shared time vector. -/
structure Scens where
  results : List (String × List (String × ScenData))
  sims : List (String × List Sim)
  tvec : List Int
deriving DecidableEq, Repr

/-- `create_figs(args, font_size, font_family, sep_figs, fig)`: with separate
figures, `fig` is discarded and an empty figure list is started; otherwise a
figure is created when none is supplied and no list is kept. -/
def create_figs (sep_figs : Bool) (fig : Option Fig) : Option Fig × Option (List Fig) :=
  if sep_figs then (none, some [])
  else (some (fig.getD Fig.created), none)

/-- The effect of `create_subplots` on the figure list: when `sep_figs` is set
a fresh per-panel figure is appended (`figs.append(pl.figure(**fig_args))`);
otherwise a subplot is added to the shared figure and the list is untouched. -/
def create_subplots (figs : Option (List Fig)) (sep_figs : Bool) (pnum : Nat) :
    Option (List Fig) :=
  if sep_figs then figs.map (fun l => l ++ [Fig.panel pnum]) else figs

/-- What `plot_sim` / `plot_scens` hand back to the caller through `tidy_up`:
the shared figure or the list of per-panel figures. -/
inductive FigReturn where
  | single (f : Option Fig)
  | multiple (fs : List Fig)
deriving DecidableEq, Repr

/-- The observable outcome of `tidy_up`: the path the figure was saved to (if
any), whether `pl.show()` ran, which figure `pl.close` received, and the
returned value. -/
structure TidyResult where
  saved : Option String
  shown : Bool
  closed : Option Fig
  ret : FigReturn
deriving DecidableEq, Repr

/-- `tidy_up(fig, figs, sep_figs, do_save, fig_path, do_show, default_name)`:
when saving, a `None` path falls back to `default_name` and the path goes
through `sc.makefilepath` before `pl.savefig`; the figure is shown or closed;
`figs` is returned when `sep_figs` is set, `fig` otherwise. -/
def tidy_up (fig : Option Fig) (figs : Option (List Fig)) (sep_figs : Bool)
    (do_save : Bool) (fig_path : Option String) (do_show : Bool)
    (makefilepath : String → String) (default_name : String) : TidyResult :=
  ⟨if do_save then some (makefilepath (fig_path.getD default_name)) else none,
    do_show,
    if do_show then none else fig,
    if sep_figs then FigReturn.multiple (figs.getD []) else FigReturn.single fig⟩

/-- The inner loop of `plot_sim` over the result keys of one panel: each key
is looked up in `sim.results` (`res = sim.results[reskey]`), then the time
vector (`res_t = sim.results['t']`), then the color and label, either from the
caller-supplied dicts or from the result object.  A missing key propagates as
`KeyError`. -/
def plot_keys (sim : Sim) (colors labels : Option (List (String × String))) :
    List String → Except PyErr Unit
  | [] => Except.ok ()
  | reskey :: rest =>
    match pyLookup sim.results reskey with
    | Except.error e => Except.error e
    | Except.ok res =>
      match pyLookup sim.results "t" with
      | Except.error e => Except.error e
      | Except.ok _res_t =>
        match (match colors with
          | some cs => pyLookup cs reskey
          | none => Except.ok res.color) with
        | Except.error e => Except.error e
        | Except.ok _color =>
          match (match labels with
            | some ls => pyLookup ls reskey
            | none => Except.ok res.name) with
          | Except.error e => Except.error e
          | Except.ok _label => plot_keys sim colors labels rest

/-- The shared shape of the panel loops of `plot_sim` and `plot_scens`: for
each `(pnum, title, keys)` from `to_plot.enumitems()`, `create_subplots` is
called (appending a per-panel figure when `sep_figs` is set) and then the
panel body runs; a failing body stops the loop with its exception. -/
def panel_loop (body : String → List String → Except PyErr Unit) (sep_figs : Bool)
    (figs : Option (List Fig)) : List (Nat × String × List String) →
    Except PyErr (Option (List Fig))
  | [] => Except.ok figs
  | (pnum, title, keys) :: rest =>
    let figs' := create_subplots figs sep_figs pnum
    match body title keys with
    | Except.error e => Except.error e
    | Except.ok _ => panel_loop body sep_figs figs' rest

/-- `plot_sim(sim, ...)`: handle the quantities to plot, create the figures,
run the panel loop, and hand the outcome to `tidy_up` with default file name
`'covasim.png'`. -/
def plot_sim (get_sim_plots get_scen_plots : ODict) (makefilepath : String → String)
    (sim : Sim) (to_plot : Option ODict) (do_save : Bool) (fig_path : Option String)
    (colors labels : Option (List (String × String))) (do_show sep_figs : Bool)
    (fig : Option Fig) (n_cols : Nat) : Except PyErr TidyResult :=
  match handle_to_plot get_sim_plots get_scen_plots "sim" to_plot n_cols with
  | Except.error e => Except.error e
  | Except.ok (tp, _n_rows) =>
    let fp := create_figs sep_figs fig
    match panel_loop (fun _ keys => plot_keys sim colors labels keys) sep_figs fp.2
        tp.enum with
    | Except.error e => Except.error e
    | Except.ok figs =>
      Except.ok (tidy_up fp.1 figs sep_figs do_save fig_path do_show makefilepath
        "covasim.png")

/-- The inner loop of `plot_scens` over one result's scenario entries: pull
the first sim of the scenario (`scens.sims[scenkey][0]`), then the color
(caller-supplied or `default_colors[snum]`) and label (caller-supplied or the
scenario series name). -/
def plot_scens_inner (scens : Scens) (colors labels : Option (List (String × String)))
    (default_colors : List String) : List (Nat × String × ScenData) →
    Except PyErr Unit
  | [] => Except.ok ()
  | (snum, scenkey, scendata) :: rest =>
    match pyLookup scens.sims scenkey with
    | Except.error e => Except.error e
    | Except.ok simlist =>
      match pyIdx simlist 0 with
      | Except.error e => Except.error e
      | Except.ok _sim =>
        match (match colors with
          | some cs => pyLookup cs scenkey
          | none => pyIdx default_colors snum) with
        | Except.error e => Except.error e
        | Except.ok _color =>
          match (match labels with
            | some ls => pyLookup ls scenkey
            | none => Except.ok scendata.name) with
          | Except.error e => Except.error e
          | Except.ok _label => plot_scens_inner scens colors labels default_colors rest

/-- The per-panel body of `plot_scens`: each result key is looked up in
`scens.results` and its scenario entries are walked by `plot_scens_inner`. -/
def plot_scens_keys (scens : Scens) (colors labels : Option (List (String × String)))
    (default_colors : List String) : List String → Except PyErr Unit
  | [] => Except.ok ()
  | reskey :: rest =>
    match pyLookup scens.results reskey with
    | Except.error e => Except.error e
    | Except.ok resdata =>
      match plot_scens_inner scens colors labels default_colors resdata.enum with
      | Except.error e => Except.error e
      | Except.ok _ => plot_scens_keys scens colors labels default_colors rest

/-- `plot_scens(scens, ...)`: as `plot_sim`, with `which='scens'`, default
colors from `sc.gridcolors(ncolors=len(scens.sims))`, and default file name
`'covasim_scenarios.png'`. -/
def plot_scens (get_sim_plots get_scen_plots : ODict) (gridcolors : Nat → List String)
    (makefilepath : String → String) (scens : Scens) (to_plot : Option ODict)
    (do_save : Bool) (fig_path : Option String)
    (colors labels : Option (List (String × String))) (do_show sep_figs : Bool)
    (fig : Option Fig) (n_cols : Nat) : Except PyErr TidyResult :=
  match handle_to_plot get_sim_plots get_scen_plots "scens" to_plot n_cols with
  | Except.error e => Except.error e
  | Except.ok (tp, _n_rows) =>
    let fp := create_figs sep_figs fig
    let default_colors := gridcolors scens.sims.length
    match panel_loop
        (fun _ keys => plot_scens_keys scens colors labels default_colors keys)
        sep_figs fp.2 tp.enum with
    | Except.error e => Except.error e
    | Except.ok figs =>
      Except.ok (tidy_up fp.1 figs sep_figs do_save fig_path do_show makefilepath
        "covasim_scenarios.png")

/-- `plot_result(sim, key, ...)`: a single-panel plot.  The result and the
time vector are looked up (`res = sim.results[key]`, `res_t =
sim.results['t']`); a missing key propagates as `KeyError`.  The figure
(supplied or created) is returned. -/
def plot_result (sim : Sim) (key : String) (color label : Option String)
    (fig : Option Fig) : Except PyErr Fig :=
  let fp := create_figs false fig
  match pyLookup sim.results key with
  | Except.error e => Except.error e
  | Except.ok res =>
    match pyLookup sim.results "t" with
    | Except.error e => Except.error e
    | Except.ok _res_t =>
      let _color := color.getD res.color
      let _label := label.getD res.name
      Except.ok (fp.1.getD Fig.created)

/-! ### Loop characterisation lemmas -/

theorem giomvGo_all_lt (time : Int) :
    ∀ (l : List Int), (∀ t ∈ l, time < t) → ∀ (ind : Option Nat) (p : Nat),
      giomvGo time ind p l = ind := by
  intro l
  induction l with
  | nil => intro _ ind p; rfl
  | cons t rest ih =>
    intro h ind p
    have ht : time < t := h t (List.mem_cons_self t rest)
    have hrest : ∀ t' ∈ rest, time < t' := fun t' ht' => h t' (List.mem_cons_of_mem t ht')
    simp only [giomvGo]
    rw [if_neg (by omega)]
    exact ih hrest ind (p + 1)

theorem giomvGo_exists (time : Int) :
    ∀ (l : List Int), (∃ t ∈ l, t ≤ time) → ∀ (ind : Option Nat) (p : Nat),
      ∃ i, giomvGo time ind p l = some (p + i) ∧
        (∃ v, l.get? i = some v ∧ v ≤ time) ∧
        (∀ j v, i < j → l.get? j = some v → time < v) := by
  intro l
  induction l with
  | nil => rintro ⟨t, ht, _⟩ _ _; simp at ht
  | cons t rest ih =>
    intro h ind p
    by_cases hrest : ∃ t' ∈ rest, t' ≤ time
    · obtain ⟨i', hgo, ⟨v, hv, hvle⟩, hafter⟩ :=
        ih hrest (if time ≥ t then some p else ind) (p + 1)
      refine ⟨i' + 1, ?_, ⟨v, by simpa using hv, hvle⟩, ?_⟩
      · simp only [giomvGo]
        rw [hgo]; congr 1; omega
      · intro j w hij hjw
        match j, hij with
        | (j' + 1), hij =>
          exact hafter j' w (by omega) (by simpa using hjw)
    · push_neg at hrest
      obtain ⟨t₀, ht₀, hle⟩ := h
      rcases List.mem_cons.mp ht₀ with h0 | h0
      · subst h0
        refine ⟨0, ?_, ⟨t₀, rfl, hle⟩, ?_⟩
        · simp only [giomvGo]
          rw [if_pos (by omega), giomvGo_all_lt time rest hrest, Nat.add_zero]
        · intro j w hij hjw
          match j, hij with
          | (j' + 1), _ =>
            exact hrest w (List.get?_mem (by simpa using hjw))
      · exact absurd hle (by have := hrest t₀ h0; omega)

/-- C1: whenever some day threshold does not exceed the time,
`get_ind_of_min_value` returns the last position whose threshold is `≤ time`
(every later position holds a strictly larger threshold), and `vacc_subtarg`
selects the age and probability entries at precisely that index. -/
theorem get_ind_of_min_value_latest (vx : VxSubtarg) (time : Int) (people : List (ℚ × Bool))
    (h : ∃ t ∈ vx.days, t ≤ time) :
    ∃ i, get_ind_of_min_value vx.days time = Except.ok i ∧
      (∃ v, vx.days.get? i = some v ∧ v ≤ time) ∧
      (∀ j v, i < j → vx.days.get? j = some v → time < v) ∧
      (∀ a p, vx.age.get? i = some a → vx.prob.get? i = some p →
        vacc_subtarg vx time people =
          Except.ok (findinds (people.map (fun q => decide (q.1 ≥ a) && !q.2)),
            List.replicate
              (findinds (people.map (fun q => decide (q.1 ≥ a) && !q.2))).length p)) := by
  obtain ⟨i, hgo, hat, hafter⟩ := giomvGo_exists time vx.days h none 0
  rw [Nat.zero_add] at hgo
  have hok : get_ind_of_min_value vx.days time = Except.ok i := by
    simp only [get_ind_of_min_value, hgo]
  refine ⟨i, hok, hat, hafter, ?_⟩
  intro a p ha hp
  simp only [vacc_subtarg, hok, pyIdx, ha, hp]

theorem get_ind_of_min_value_latest_witness :
    (∃ t ∈ ([0, 10, 20] : List Int), t ≤ 12) ∧
    (∃ i, get_ind_of_min_value [0, 10, 20] 12 = Except.ok i ∧
      (∃ v, ([0, 10, 20] : List Int).get? i = some v ∧ v ≤ 12) ∧
      (∀ j v, i < j → ([0, 10, 20] : List Int).get? j = some v → 12 < v) ∧
      (∀ a p, ([50, 30, 18] : List ℚ).get? i = some a →
        ([1/10, 2/10, 3/10] : List ℚ).get? i = some p →
        vacc_subtarg ⟨[0, 10, 20], [50, 30, 18], [1/10, 2/10, 3/10]⟩ 12
            [(40, false), (20, true), (35, false)] =
          Except.ok (findinds ([(40, false), (20, true), (35, false)].map
              (fun q => decide (q.1 ≥ a) && !q.2)),
            List.replicate
              (findinds ([(40, false), (20, true), (35, false)].map
                (fun q => decide (q.1 ≥ a) && !q.2))).length p))) :=
  ⟨by decide,
    get_ind_of_min_value_latest ⟨[0, 10, 20], [50, 30, 18], [1/10, 2/10, 3/10]⟩ 12
      [(40, false), (20, true), (35, false)] (by decide)⟩

/-- C2: when the time precedes every threshold in the list,
`get_ind_of_min_value` raises `ValueError` with a message naming the offending
time value; when some threshold does not exceed the time it returns normally. -/
theorem get_ind_of_min_value_out_of_range (list : List Int) (time : Int) :
    ((∀ t ∈ list, time < t) →
      get_ind_of_min_value list time =
        Except.error (PyErr.valueError (toString time ++ " is not within the list of times"))) ∧
    ((∃ t ∈ list, t ≤ time) → ∃ i, get_ind_of_min_value list time = Except.ok i) := by
  constructor
  · intro hall
    simp only [get_ind_of_min_value, giomvGo_all_lt time list hall none 0]
  · intro hex
    obtain ⟨i, hgo, _, _⟩ := giomvGo_exists time list hex none 0
    exact ⟨0 + i, by simp only [get_ind_of_min_value, hgo]⟩

theorem get_ind_of_min_value_out_of_range_witness :
    get_ind_of_min_value [5, 7] 3 =
      Except.error (PyErr.valueError ("3 is not within the list of times")) ∧
    (∃ i, get_ind_of_min_value [5] 6 = Except.ok i) := by
  constructor
  · have h := (get_ind_of_min_value_out_of_range [5, 7] 3).1 (by decide)
    simpa using h
  · exact (get_ind_of_min_value_out_of_range [5] 6).2 ⟨5, by decide, by decide⟩

/-- C3 counterexample: with a non-`None` `to_plot`, `handle_to_plot` returns
normally even for a `which` value that is neither `"sim"` nor `"scens"`, so the
claim that every such `which` raises `NotImplementedError` is false. -/
theorem handle_to_plot_bad_which_counterexample :
    handle_to_plot [] [] "neither" (some [("Panel", ["key"])]) 1 =
      Except.ok ([("Panel", ["key"])], 1) := rfl

/-- C3 (amended): when `to_plot` is `None` and `which` is neither `"sim"` nor
`"scens"`, `handle_to_plot` raises `NotImplementedError` with a message naming
the bad category. -/
theorem handle_to_plot_bad_which (gsp gscp : ODict) (which : String) (n_cols : Nat)
    (h1 : which ≠ "sim") (h2 : which ≠ "scens") :
    handle_to_plot gsp gscp which none n_cols =
      Except.error (PyErr.notImplementedError
        ("\"which\" must be \"sim\" or \"scens\", not \"" ++ which ++ "\"")) := by
  simp only [handle_to_plot, if_neg h1, if_neg h2]

theorem handle_to_plot_bad_which_witness :
    handle_to_plot [] [] "people" none 3 =
      Except.error (PyErr.notImplementedError
        "\"which\" must be \"sim\" or \"scens\", not \"people\"") := by
  have h := handle_to_plot_bad_which [] [] "people" 3 (by decide) (by decide)
  simpa using h

/-- C8: with a non-`None` `to_plot` (and a positive column count), the `which`
validation is skipped: `handle_to_plot` never raises, returns the supplied
mapping itself, and a row count that is the least number of rows of `n_cols`
columns holding all the panels (the ceiling of panels over columns). -/
theorem handle_to_plot_supplied (gsp gscp : ODict) (which : String) (tp : ODict)
    (n_cols : Nat) (h : 0 < n_cols) :
    handle_to_plot gsp gscp which (some tp) n_cols =
      Except.ok (tp, (tp.length + n_cols - 1) / n_cols) ∧
    tp.length ≤ ((tp.length + n_cols - 1) / n_cols) * n_cols ∧
    (∀ m, tp.length ≤ m * n_cols → (tp.length + n_cols - 1) / n_cols ≤ m) := by
  refine ⟨?_, ?_, ?_⟩
  · simp only [handle_to_plot, if_neg (Nat.pos_iff_ne_zero.mp h)]
  · have h1 := Nat.div_add_mod (tp.length + n_cols - 1) n_cols
    have h2 := Nat.mod_lt (tp.length + n_cols - 1) h
    have h3 : n_cols * ((tp.length + n_cols - 1) / n_cols) =
        ((tp.length + n_cols - 1) / n_cols) * n_cols := Nat.mul_comm _ _
    omega
  · intro m hm
    have hlt : tp.length + n_cols - 1 < (m + 1) * n_cols := by
      rw [Nat.succ_mul]; omega
    exact Nat.lt_succ_iff.mp ((Nat.div_lt_iff_lt_mul h).mpr hlt)

theorem handle_to_plot_supplied_witness :
    0 < 2 ∧
    (handle_to_plot [] [] "anything" (some [("A", ["x"]), ("B", ["y"]), ("C", ["z"])]) 2 =
      Except.ok ([("A", ["x"]), ("B", ["y"]), ("C", ["z"])], 2) ∧
    ([("A", ["x"]), ("B", ["y"]), ("C", ["z"])] : ODict).length ≤ 2 * 2 ∧
    (∀ m, ([("A", ["x"]), ("B", ["y"]), ("C", ["z"])] : ODict).length ≤ m * 2 → 2 ≤ m)) :=
  ⟨by decide,
    handle_to_plot_supplied [] [] "anything" [("A", ["x"]), ("B", ["y"]), ("C", ["z"])] 2
      (by decide)⟩

/-- C9: `title_grid_legend` leaves its `legend_args` dictionary unchanged as a
mapping: a present `'show_legend'` entry is popped during the call but written
back with its original value, so every key looks up to the same value after
the call as before it. -/
theorem title_grid_legend_preserves_legend_args {α : Type} (legend_args : List (String × α))
    (truthy : α → Bool) (show_legend : Bool) (k : String) :
    dictLookup k (title_grid_legend legend_args truthy show_legend).2 =
      dictLookup k legend_args := by
  rcases hpop : dictPop "show_legend" legend_args with _ | ⟨v, rest⟩
  · simp only [title_grid_legend, hpop]
  · simp only [title_grid_legend, hpop]
    by_cases hk : k = "show_legend"
    · subst hk
      rw [lookup_dictSet_self, dictPop_lookup_self _ legend_args v rest hpop]
    · rw [lookup_dictSet_ne _ k v hk, dictPop_lookup_ne _ k hk legend_args v rest hpop]

theorem panel_loop_nonsep (body : String → List String → Except PyErr Unit)
    (panels : List (Nat × String × List String)) :
    ∀ (figs figs' : Option (List Fig)),
      panel_loop body false figs panels = Except.ok figs' → figs' = figs := by
  induction panels with
  | nil =>
    intro figs figs' h
    simp only [panel_loop, Except.ok.injEq] at h
    exact h.symm
  | cons p rest ih =>
    obtain ⟨pnum, title, keys⟩ := p
    intro figs figs' h
    simp only [panel_loop] at h
    cases hb : body title keys with
    | error e => simp only [hb] at h; exact absurd h (by simp)
    | ok u =>
      simp only [hb] at h
      have := ih _ _ h
      rw [this]
      simp [create_subplots]

theorem panel_loop_sep (body : String → List String → Except PyErr Unit)
    (panels : List (Nat × String × List String)) :
    ∀ (l : List Fig) (figs' : Option (List Fig)),
      panel_loop body true (some l) panels = Except.ok figs' →
      ∃ l', figs' = some (l ++ l') ∧ l'.length = panels.length := by
  induction panels with
  | nil =>
    intro l figs' h
    simp only [panel_loop, Except.ok.injEq] at h
    exact ⟨[], by rw [← h, List.append_nil], rfl⟩
  | cons p rest ih =>
    obtain ⟨pnum, title, keys⟩ := p
    intro l figs' h
    simp only [panel_loop] at h
    cases hb : body title keys with
    | error e => simp only [hb] at h; exact absurd h (by simp)
    | ok u =>
      simp only [hb] at h
      have hcs : create_subplots (some l) true pnum = some (l ++ [Fig.panel pnum]) := by
        simp [create_subplots]
      rw [hcs] at h
      obtain ⟨l'', hfigs, hlen⟩ := ih (l ++ [Fig.panel pnum]) figs' h
      refine ⟨Fig.panel pnum :: l'', ?_, by simp [hlen]⟩
      rw [hfigs, List.append_assoc]
      rfl

/-- The return value and save path of the `tidy_up` call closing the
`plot_sim` / `plot_scens` pipeline, given a successful panel loop. -/
theorem tidy_ret_of_loop (body : String → List String → Except PyErr Unit) (tp : ODict)
    (sep_figs : Bool) (fig : Option Fig) (figs : Option (List Fig)) (do_save : Bool)
    (fig_path : Option String) (do_show : Bool) (mfp : String → String) (dn : String)
    (hloop : panel_loop body sep_figs (create_figs sep_figs fig).2 tp.enum =
      Except.ok figs) :
    (sep_figs = false →
      (tidy_up (create_figs sep_figs fig).1 figs sep_figs do_save fig_path do_show
        mfp dn).ret = FigReturn.single (some (fig.getD Fig.created))) ∧
    (sep_figs = true →
      ∃ fs, (tidy_up (create_figs sep_figs fig).1 figs sep_figs do_save fig_path do_show
        mfp dn).ret = FigReturn.multiple fs ∧ fs.length = tp.length) := by
  cases sep_figs with
  | false =>
    constructor
    · intro _
      simp [tidy_up, create_figs]
    · intro h
      exact absurd h (by decide)
  | true =>
    constructor
    · intro h
      exact absurd h (by decide)
    · intro _
      have h0 : (create_figs true fig).2 = some [] := by simp [create_figs]
      rw [h0] at hloop
      obtain ⟨l', hfigs, hlen⟩ := panel_loop_sep _ _ [] figs hloop
      refine ⟨l', ?_, by rw [hlen, List.enum_length]⟩
      simp [tidy_up, hfigs]

/-- A successful `plot_sim` run decomposes into a successful `handle_to_plot`,
a successful panel loop, and a `tidy_up` with default name `'covasim.png'`. -/
theorem plot_sim_ok_elim (gsp gscp : ODict) (mfp : String → String) (sim : Sim)
    (to_plot : Option ODict) (do_save : Bool) (fig_path : Option String)
    (colors labels : Option (List (String × String))) (do_show sep_figs : Bool)
    (fig : Option Fig) (n_cols : Nat) (out : TidyResult)
    (h : plot_sim gsp gscp mfp sim to_plot do_save fig_path colors labels do_show
      sep_figs fig n_cols = Except.ok out) :
    ∃ tp nr figs,
      handle_to_plot gsp gscp "sim" to_plot n_cols = Except.ok (tp, nr) ∧
      panel_loop (fun _ keys => plot_keys sim colors labels keys) sep_figs
        (create_figs sep_figs fig).2 tp.enum = Except.ok figs ∧
      out = tidy_up (create_figs sep_figs fig).1 figs sep_figs do_save fig_path
        do_show mfp "covasim.png" := by
  simp only [plot_sim] at h
  cases hh : handle_to_plot gsp gscp "sim" to_plot n_cols with
  | error e =>
    simp only [hh] at h
    exact Except.noConfusion h
  | ok v =>
    obtain ⟨tp, nr⟩ := v
    simp only [hh] at h
    cases hl : panel_loop (fun _ keys => plot_keys sim colors labels keys) sep_figs
        (create_figs sep_figs fig).2 tp.enum with
    | error e =>
      simp only [hl] at h
      exact Except.noConfusion h
    | ok figs =>
      simp only [hl, Except.ok.injEq] at h
      exact ⟨tp, nr, figs, rfl, hl, h.symm⟩

/-- A successful `plot_scens` run decomposes the same way, with default name
`'covasim_scenarios.png'`. -/
theorem plot_scens_ok_elim (gsp gscp : ODict) (gridcolors : Nat → List String)
    (mfp : String → String) (scens : Scens) (to_plot : Option ODict) (do_save : Bool)
    (fig_path : Option String) (colors labels : Option (List (String × String)))
    (do_show sep_figs : Bool) (fig : Option Fig) (n_cols : Nat) (out : TidyResult)
    (h : plot_scens gsp gscp gridcolors mfp scens to_plot do_save fig_path colors
      labels do_show sep_figs fig n_cols = Except.ok out) :
    ∃ tp nr figs,
      handle_to_plot gsp gscp "scens" to_plot n_cols = Except.ok (tp, nr) ∧
      panel_loop (fun _ keys => plot_scens_keys scens colors labels
        (gridcolors scens.sims.length) keys) sep_figs
        (create_figs sep_figs fig).2 tp.enum = Except.ok figs ∧
      out = tidy_up (create_figs sep_figs fig).1 figs sep_figs do_save fig_path
        do_show mfp "covasim_scenarios.png" := by
  simp only [plot_scens] at h
  cases hh : handle_to_plot gsp gscp "scens" to_plot n_cols with
  | error e =>
    simp only [hh] at h
    exact Except.noConfusion h
  | ok v =>
    obtain ⟨tp, nr⟩ := v
    simp only [hh] at h
    cases hl : panel_loop (fun _ keys => plot_scens_keys scens colors labels
        (gridcolors scens.sims.length) keys) sep_figs
        (create_figs sep_figs fig).2 tp.enum with
    | error e =>
      simp only [hl] at h
      exact Except.noConfusion h
    | ok figs =>
      simp only [hl, Except.ok.injEq] at h
      exact ⟨tp, nr, figs, rfl, hl, h.symm⟩

/-- C5: with saving requested, `plot_sim` saves under the default name
`'covasim.png'` and `plot_scens` under `'covasim_scenarios.png'` when no
figure path is supplied, and under the caller-specified path otherwise (both
through `sc.makefilepath`). -/
theorem plot_default_save_names (gsp gscp : ODict) (gridcolors : Nat → List String)
    (mfp : String → String) (sim : Sim) (scens : Scens) (to_plot to_plot2 : Option ODict)
    (fig_path fig_path2 : Option String)
    (colors labels colors2 labels2 : Option (List (String × String)))
    (do_show do_show2 sep_figs sep_figs2 : Bool) (fig fig2 : Option Fig)
    (n_cols n_cols2 : Nat) (out out2 : TidyResult)
    (hsim : plot_sim gsp gscp mfp sim to_plot true fig_path colors labels do_show
      sep_figs fig n_cols = Except.ok out)
    (hscens : plot_scens gsp gscp gridcolors mfp scens to_plot2 true fig_path2
      colors2 labels2 do_show2 sep_figs2 fig2 n_cols2 = Except.ok out2) :
    (fig_path = none → out.saved = some (mfp "covasim.png")) ∧
    (∀ p, fig_path = some p → out.saved = some (mfp p)) ∧
    (fig_path2 = none → out2.saved = some (mfp "covasim_scenarios.png")) ∧
    (∀ p, fig_path2 = some p → out2.saved = some (mfp p)) := by
  obtain ⟨tp, nr, figs, hh, hl, hout⟩ := plot_sim_ok_elim _ _ _ _ _ _ _ _ _ _ _ _ _ _ hsim
  obtain ⟨tp2, nr2, figs2, hh2, hl2, hout2⟩ :=
    plot_scens_ok_elim _ _ _ _ _ _ _ _ _ _ _ _ _ _ _ hscens
  subst hout
  subst hout2
  refine ⟨?_, ?_, ?_, ?_⟩
  · rintro rfl; simp [tidy_up]
  · rintro p rfl; simp [tidy_up]
  · rintro rfl; simp [tidy_up]
  · rintro p rfl; simp [tidy_up]

/-- C6: `plot_sim` and `plot_scens` return the single (supplied or created)
figure when `sep_figs` is false — independently of showing or closing — and
the list of per-panel figures, one per panel of the plotted quantities, when
`sep_figs` is true. -/
theorem plot_returns_figures (gsp gscp : ODict) (gridcolors : Nat → List String)
    (mfp : String → String) (sim : Sim) (scens : Scens) (to_plot to_plot2 : Option ODict)
    (do_save do_save2 : Bool) (fig_path fig_path2 : Option String)
    (colors labels colors2 labels2 : Option (List (String × String)))
    (do_show do_show2 sep_figs : Bool) (fig fig2 : Option Fig)
    (n_cols n_cols2 : Nat) (out out2 : TidyResult)
    (hsim : plot_sim gsp gscp mfp sim to_plot do_save fig_path colors labels do_show
      sep_figs fig n_cols = Except.ok out)
    (hscens : plot_scens gsp gscp gridcolors mfp scens to_plot2 do_save2 fig_path2
      colors2 labels2 do_show2 sep_figs fig2 n_cols2 = Except.ok out2) :
    (sep_figs = false →
      out.ret = FigReturn.single (some (fig.getD Fig.created)) ∧
      out2.ret = FigReturn.single (some (fig2.getD Fig.created))) ∧
    (sep_figs = true →
      (∃ tp nr fs, handle_to_plot gsp gscp "sim" to_plot n_cols = Except.ok (tp, nr) ∧
        out.ret = FigReturn.multiple fs ∧ fs.length = tp.length) ∧
      (∃ tp nr fs, handle_to_plot gsp gscp "scens" to_plot2 n_cols2 = Except.ok (tp, nr) ∧
        out2.ret = FigReturn.multiple fs ∧ fs.length = tp.length)) := by
  obtain ⟨tp, nr, figs, hh, hl, hout⟩ := plot_sim_ok_elim _ _ _ _ _ _ _ _ _ _ _ _ _ _ hsim
  obtain ⟨tp2, nr2, figs2, hh2, hl2, hout2⟩ :=
    plot_scens_ok_elim _ _ _ _ _ _ _ _ _ _ _ _ _ _ _ hscens
  subst hout
  subst hout2
  have t1 := tidy_ret_of_loop _ tp sep_figs fig figs do_save fig_path do_show mfp
    "covasim.png" hl
  have t2 := tidy_ret_of_loop _ tp2 sep_figs fig2 figs2 do_save2 fig_path2 do_show2 mfp
    "covasim_scenarios.png" hl2
  constructor
  · intro hs
    exact ⟨t1.1 hs, t2.1 hs⟩
  · intro hs
    obtain ⟨fs, hret, hlen⟩ := t1.2 hs
    obtain ⟨fs2, hret2, hlen2⟩ := t2.2 hs
    exact ⟨⟨tp, nr, fs, hh, hret, hlen⟩, ⟨tp2, nr2, fs2, hh2, hret2, hlen2⟩⟩

/-- C7: a result key absent from `sim.results` propagates out of `plot_sim`
and `plot_result` as the raw `KeyError` of the lookup, not converted into any
of the documented validation failures. -/
theorem plot_missing_key_propagates (gsp gscp : ODict) (mfp : String → String)
    (sim : Sim) (title k : String) (ks : List String) (rest : ODict) (do_save : Bool)
    (fig_path : Option String) (colors labels : Option (List (String × String)))
    (do_show sep_figs : Bool) (fig : Option Fig) (n_cols : Nat)
    (color label : Option String) (fig2 : Option Fig)
    (hcols : 0 < n_cols) (hmiss : dictLookup k sim.results = none) :
    plot_sim gsp gscp mfp sim (some ((title, k :: ks) :: rest)) do_save fig_path
      colors labels do_show sep_figs fig n_cols = Except.error (PyErr.keyError k) ∧
    plot_result sim k color label fig2 = Except.error (PyErr.keyError k) := by
  constructor
  · simp only [plot_sim, handle_to_plot]
    rw [if_neg (Nat.pos_iff_ne_zero.mp hcols)]
    simp only [List.enum_cons, panel_loop, plot_keys, pyLookup, hmiss]
  · simp only [plot_result, pyLookup, hmiss]

/-- A small concrete simulation for exercising the pipeline: results hold the
time vector `'t'` and one series `'a'`. -/
def sampleSim : Sim :=
  ⟨[("t", ⟨[0, 1], "t", "black", none, none⟩),
    ("a", ⟨[3, 4], "Series a", "blue", none, none⟩)], none, [], 10⟩

/-- A small concrete scenario-results object with one scenario `'s1'`. -/
def sampleScens : Scens :=
  ⟨[("a", [("s1", ⟨[1, 2], [0, 1], [2, 3], "Scenario 1"⟩)])], [("s1", [sampleSim])], [0, 1]⟩

theorem plot_default_save_names_witness :
    plot_sim [] [] id sampleSim (some [("Panel", ["a"])]) true none none none true false
        none 1 =
      Except.ok ⟨some "covasim.png", true, none, FigReturn.single (some Fig.created)⟩ ∧
    plot_scens [] [] (fun n => List.replicate n "blue") id sampleScens
        (some [("Panel", ["a"])]) true (some "figs/my.png") none none true false
        none 1 =
      Except.ok ⟨some "figs/my.png", true, none, FigReturn.single (some Fig.created)⟩ ∧
    (⟨some "covasim.png", true, none, FigReturn.single (some Fig.created)⟩ :
      TidyResult).saved = some (id "covasim.png") ∧
    (⟨some "figs/my.png", true, none, FigReturn.single (some Fig.created)⟩ :
      TidyResult).saved = some (id "figs/my.png") := by
  have h := plot_default_save_names [] [] (fun n => List.replicate n "blue") id
    sampleSim sampleScens (some [("Panel", ["a"])]) (some [("Panel", ["a"])])
    none (some "figs/my.png") none none none none true true false false none none 1 1
    ⟨some "covasim.png", true, none, FigReturn.single (some Fig.created)⟩
    ⟨some "figs/my.png", true, none, FigReturn.single (some Fig.created)⟩
    rfl rfl
  exact ⟨rfl, rfl, h.1 rfl, h.2.2.2 "figs/my.png" rfl⟩

theorem plot_returns_figures_witness :
    plot_sim [] [] id sampleSim (some [("Panel", ["a"])]) false none none none false true
        none 1 =
      Except.ok ⟨none, false, none, FigReturn.multiple [Fig.panel 0]⟩ ∧
    plot_scens [] [] (fun n => List.replicate n "blue") id sampleScens
        (some [("Panel", ["a"])]) false none none none false true none 1 =
      Except.ok ⟨none, false, none, FigReturn.multiple [Fig.panel 0]⟩ ∧
    ((∃ tp nr fs, handle_to_plot [] [] "sim" (some [("Panel", ["a"])]) 1 =
        Except.ok (tp, nr) ∧
      (⟨none, false, none, FigReturn.multiple [Fig.panel 0]⟩ : TidyResult).ret =
        FigReturn.multiple fs ∧ fs.length = tp.length) ∧
    (∃ tp nr fs, handle_to_plot [] [] "scens" (some [("Panel", ["a"])]) 1 =
        Except.ok (tp, nr) ∧
      (⟨none, false, none, FigReturn.multiple [Fig.panel 0]⟩ : TidyResult).ret =
        FigReturn.multiple fs ∧ fs.length = tp.length)) := by
  have h := plot_returns_figures [] [] (fun n => List.replicate n "blue") id
    sampleSim sampleScens (some [("Panel", ["a"])]) (some [("Panel", ["a"])])
    false false none none none none none none false false true none none 1 1
    ⟨none, false, none, FigReturn.multiple [Fig.panel 0]⟩
    ⟨none, false, none, FigReturn.multiple [Fig.panel 0]⟩
    rfl rfl
  exact ⟨rfl, rfl, h.2 rfl⟩

theorem plot_missing_key_propagates_witness :
    0 < 1 ∧
    dictLookup "x" sampleSim.results = none ∧
    (plot_sim [] [] id sampleSim (some [("Panel", ["x"])]) false none none none true
        false none 1 = Except.error (PyErr.keyError "x") ∧
      plot_result sampleSim "x" none none none = Except.error (PyErr.keyError "x")) :=
  ⟨by decide, rfl,
    plot_missing_key_propagates [] [] id sampleSim "Panel" "x" [] [] false none none
      none true false none 1 none none none (by decide) rfl⟩

/-- C4: `plot_transtree` raises a `ValueError` telling the caller to run
`sim.people.make_detailed_transtree()` when the `detailed` attribute is `None`,
and does not raise that error when `detailed` is present. -/
theorem plot_transtree_requires_detailed (detailed : Option (List TTEntry)) :
    (detailed = none →
      plot_transtree detailed = Except.error (PyErr.valueError
        "Please run sim.people.make_detailed_transtree() before calling plotting")) ∧
    (∀ d, detailed = some d →
      plot_transtree detailed ≠ Except.error (PyErr.valueError
        "Please run sim.people.make_detailed_transtree() before calling plotting")) := by
  constructor
  · rintro rfl; rfl
  · rintro d rfl h
    simp only [plot_transtree, Except.error.injEq] at h
    cases h

theorem plot_transtree_requires_detailed_witness :
    plot_transtree none = Except.error (PyErr.valueError
      "Please run sim.people.make_detailed_transtree() before calling plotting") ∧
    plot_transtree (some [⟨true, true, 3, "home"⟩]) ≠ Except.error (PyErr.valueError
      "Please run sim.people.make_detailed_transtree() before calling plotting") :=
  ⟨(plot_transtree_requires_detailed none).1 rfl,
    (plot_transtree_requires_detailed (some [⟨true, true, 3, "home"⟩])).2
      [⟨true, true, 3, "home"⟩] rfl⟩

theorem mem_sim_marker_days (n_days d : Int) (i : Intervention) :
    (d ∈ (match i.days with
      | none => ([] : List Int)
      | some ds => ds.filter (fun x => decide (x > 0) && decide (x < n_days)))) ↔
      ∃ ds, i.days = some ds ∧ d ∈ ds ∧ 0 < d ∧ d < n_days := by
  rcases hd : i.days with _ | ds <;> simp only [hd, List.mem_filter]
  · simp
  · simp only [Option.some.injEq, List.not_mem_nil]
    constructor
    · rintro ⟨hmem, hcond⟩
      simp only [Bool.and_eq_true, decide_eq_true_eq] at hcond
      exact ⟨ds, rfl, hmem, hcond.1, hcond.2⟩
    · rintro ⟨ds', hds', hmem, h1, h2⟩
      cases hds'
      exact ⟨hmem, by simp [h1, h2]⟩

theorem mem_people_marker_days (n_days d : Int) (i : Intervention) :
    (d ∈ (match i.days with
      | none => ([] : List Int)
      | some ds =>
        if i.do_plot then ds.filter (fun x => decide (x > 0) && decide (x < n_days))
        else [])) ↔
      i.do_plot = true ∧ ∃ ds, i.days = some ds ∧ d ∈ ds ∧ 0 < d ∧ d < n_days := by
  rcases hd : i.days with _ | ds <;> simp only [hd]
  · simp
  · by_cases hp : i.do_plot
    · rw [if_pos hp]
      simp only [List.mem_filter, Option.some.injEq]
      constructor
      · rintro ⟨hmem, hcond⟩
        simp only [Bool.and_eq_true, decide_eq_true_eq] at hcond
        exact ⟨hp, ds, rfl, hmem, hcond.1, hcond.2⟩
      · rintro ⟨_, ds', hds', hmem, h1, h2⟩
        cases hds'
        exact ⟨hmem, by simp [h1, h2]⟩
    · rw [if_neg hp]
      simp only [List.not_mem_nil, false_iff, not_and]
      intro hc
      exact absurd hc hp

/-- C10: a vertical intervention change marker appears for a day exactly when
that day lies strictly between `0` and `n_days` on an intervention exposing a
`days` attribute; `plotly_people` additionally requires the intervention's
`do_plot` flag, while `plotly_sim` ignores it. -/
theorem plotly_intervention_marker_bounds (interventions : List Intervention)
    (n_days d : Int) :
    (d ∈ plotly_sim_markers interventions n_days ↔
      ∃ i ∈ interventions, ∃ ds, i.days = some ds ∧ d ∈ ds ∧ 0 < d ∧ d < n_days) ∧
    (d ∈ plotly_people_markers interventions n_days ↔
      ∃ i ∈ interventions, i.do_plot = true ∧
        ∃ ds, i.days = some ds ∧ d ∈ ds ∧ 0 < d ∧ d < n_days) := by
  constructor
  · cases interventions with
    | nil => simp [plotly_sim_markers]
    | cons a l =>
      rw [plotly_sim_markers, if_neg (by simp), List.mem_flatMap]
      constructor
      · rintro ⟨i, hi, hmem⟩
        exact ⟨i, hi, (mem_sim_marker_days n_days d i).mp hmem⟩
      · rintro ⟨i, hi, hds⟩
        exact ⟨i, hi, (mem_sim_marker_days n_days d i).mpr hds⟩
  · cases interventions with
    | nil => simp [plotly_people_markers]
    | cons a l =>
      rw [plotly_people_markers, if_neg (by simp), List.mem_flatMap]
      constructor
      · rintro ⟨i, hi, hmem⟩
        exact ⟨i, hi, (mem_people_marker_days n_days d i).mp hmem⟩
      · rintro ⟨i, hi, hds⟩
        exact ⟨i, hi, (mem_people_marker_days n_days d i).mpr hds⟩

end Covasim
